import Mathlib

/-!
Shallow embedding of the Flask image microservice (src/app.py).

The service keeps image blobs in an object-storage bucket and image metadata
in a relational table.  We model the joint state of the two backends plus the
number of currently open database connections, and translate each route
handler (upload_image, list_images, update_image, delete_image) and the
response formatter (format_response) as a pure function over that state.
Each handler also emits a trace of the backend effects it performed, in
order, so ordering claims can be stated as facts about the trace.  Backend
failures are injected through a record of fault flags: when a flag is set,
the corresponding backend call raises instead of taking effect, exactly at
the program point where src/app.py makes that call.
-/

set_option autoImplicit false

/-- A row of the `images` table. -/
structure ImageRecord where
  id : Nat
  filename : String
  filesize_bytes : Nat
  mime_type : String
  access_url : String
deriving DecidableEq, Repr

/-- A stored blob: its bytes and its content type. -/
structure BlobData where
  content : List Nat
  contentType : String
deriving DecidableEq, Repr

/-- The parsed multipart file part (`request.files['file']` in app.py):
Werkzeug hands the handler a file handle with a `filename`, a stream of
bytes, a declared `content_length` and a `content_type`. -/
structure FilePart where
  filename : String
  content : List Nat
  content_length : Nat
  content_type : String
deriving DecidableEq, Repr

/-- `blob.public_url`: the stable public address of the object stored under
`key`, deterministic in the key. -/
def public_url (key : String) : String :=
  "https://storage.googleapis.com/bucket/" ++ key

/-- The bucket, as an association list from object key to blob. -/
abbrev Bucket := List (String × BlobData)

/-- `bucket.blob(key)` + `upload_from_file`: store `b` under `key`,
overwriting any existing object with that key. -/
def putBlob (bucket : Bucket) (key : String) (b : BlobData) : Bucket :=
  bucket.filter (fun p => p.1 != key) ++ [(key, b)]

/-- Fetch the blob stored under `key`, if any. -/
def getBlob (bucket : Bucket) (key : String) : Option BlobData :=
  (bucket.find? (fun p => p.1 == key)).map (fun p => p.2)

/-- `blob.delete()`: remove the object stored under `key`. -/
def delBlob (bucket : Bucket) (key : String) : Bucket :=
  bucket.filter (fun p => p.1 != key)

/-- `SELECT ... FROM images WHERE id = %s` followed by `fetchone()`. -/
def selectById (table : List ImageRecord) (i : Nat) : Option ImageRecord :=
  table.find? (fun r => r.id == i)

/-- `UPDATE images SET filename, filesize_bytes, mime_type, access_url WHERE id = %s`. -/
def updateById (table : List ImageRecord) (i : Nat) (fn : String) (sz : Nat)
    (mt : String) (url : String) : List ImageRecord :=
  table.map (fun r =>
    if r.id == i then
      { r with filename := fn, filesize_bytes := sz, mime_type := mt, access_url := url }
    else r)

/-- `DELETE FROM images WHERE id = %s`. -/
def deleteById (table : List ImageRecord) (i : Nat) : List ImageRecord :=
  table.filter (fun r => r.id != i)

/-- Values of the JSON / XML payloads the handlers build. -/
inductive JValue where
  | str (s : String)
  | num (n : Nat)
  | arr (xs : List JValue)
  | obj (fields : List (String × JValue))
deriving Repr

/-- A response body: the payload, tagged with the representation
(JSON or XML) it was rendered in. -/
inductive Body where
  | json (d : List (String × JValue))
  | xml (d : List (String × JValue))
deriving Repr

/-- Whether a body was rendered as XML. -/
def Body.isXml : Body → Bool
  | .xml _ => true
  | .json _ => false

/-- The payload a body carries, independent of representation. -/
def Body.data : Body → List (String × JValue)
  | .xml d => d
  | .json d => d

/-- An HTTP response: body, status code and content-type header. -/
structure HttpResponse where
  body : Body
  status : Nat
  contentType : String
deriving Repr

/-- Look up a top-level field of a payload. -/
def fieldOf (d : List (String × JValue)) (k : String) : Option JValue :=
  (d.find? (fun p => p.1 == k)).map (fun p => p.2)

/-- `format_response(data, code)` from app.py: if the request's `Accept`
header is exactly `application/xml`, render the payload as XML with
content type `application/xml`; otherwise render JSON (Flask's `jsonify`
sets content type `application/json`).  Either way use status `code`. -/
def format_response (accept : Option String) (data : List (String × JValue))
    (code : Nat) : HttpResponse :=
  if accept = some "application/xml" then
    { body := Body.xml data, status := code, contentType := "application/xml" }
  else
    { body := Body.json data, status := code, contentType := "application/json" }

/-- Backend effects performed by a handler, recorded in program order. -/
inductive Ev where
  | connOpen
  | connClose
  | dbSelect
  | dbInsert
  | dbUpdate (i : Nat)
  | dbDeleteRow (i : Nat)
  | blobUpload (key : String)
  | blobDelete (key : String)
deriving DecidableEq, Repr

/-- Joint state of the two backends, plus the number of database
connections currently open (acquired and not yet released). -/
structure SysState where
  bucket : Bucket
  table : List ImageRecord
  nextId : Nat
  openConns : Nat
deriving DecidableEq, Repr

/-- The result of running a handler: either a response was returned, or an
unhandled backend exception escaped.  Both carry the state the backends
were left in and the trace of effects performed before the exit. -/
inductive Outcome where
  | ok (st : SysState) (tr : List Ev) (resp : HttpResponse)
  | exn (st : SysState) (tr : List Ev) (err : String)
deriving Repr

/-- The state the backends are left in after the handler exits. -/
def Outcome.finalState : Outcome → SysState
  | .ok st _ _ => st
  | .exn st _ _ => st

/-- The trace of backend effects the handler performed, in order. -/
def Outcome.trace : Outcome → List Ev
  | .ok _ tr _ => tr
  | .exn _ tr _ => tr

/-- The response, when the handler returned one (none when an exception
escaped to the framework). -/
def Outcome.response : Outcome → Option HttpResponse
  | .ok _ _ r => some r
  | .exn _ _ _ => none

/-- Did an unhandled backend exception escape? -/
def Outcome.isExn : Outcome → Bool
  | .exn _ _ _ => true
  | .ok _ _ _ => false

/-- Fault flags: each flag makes the corresponding backend call raise at
the program point where app.py performs it. -/
structure Faults where
  uploadFails : Bool
  insertFails : Bool
  blobDeleteFails : Bool
  updateFails : Bool
  rowDeleteFails : Bool
deriving DecidableEq, Repr

/-- All backend calls succeed. -/
def noFaults : Faults := ⟨false, false, false, false, false⟩

/-- An inbound HTTP request, as far as the handlers inspect it: the
`Accept` header (absent or its literal value) and the multipart file part
(absent or present). -/
structure HttpRequest where
  accept : Option String
  filePart : Option FilePart
deriving Repr

/-- `upload_image` (POST /images), app.py lines 46-95: if the file part is
missing, respond 400.  Otherwise upload the blob under the supplied
filename with the supplied content type and make it public, then open a
connection, insert the metadata row referencing the blob's public URL,
commit, close, and respond 200. -/
def upload_image (st : SysState) (req : HttpRequest) (f : Faults) : Outcome :=
  match req.filePart with
  | none =>
      .ok st [] (format_response req.accept
        [("error", JValue.str "No se encontró el archivo")] 400)
  | some file =>
      if f.uploadFails then
        .exn st [] "StorageWriteError"
      else
        let st1 := { st with
          bucket := putBlob st.bucket file.filename ⟨file.content, file.content_type⟩ }
        let access_url := public_url file.filename
        let st2 := { st1 with openConns := st1.openConns + 1 }
        if f.insertFails then
          .exn st2 [Ev.blobUpload file.filename, Ev.connOpen] "StoreQueryError"
        else
          let newRec : ImageRecord :=
            ⟨st2.nextId, file.filename, file.content_length, file.content_type, access_url⟩
          let st3 := { st2 with table := st2.table ++ [newRec], nextId := st2.nextId + 1 }
          let st4 := { st3 with openConns := st3.openConns - 1 }
          .ok st4 [Ev.blobUpload file.filename, Ev.connOpen, Ev.dbInsert, Ev.connClose]
            (format_response req.accept
              [("message", JValue.str "Imagen subida correctamente"),
               ("filename", JValue.str file.filename),
               ("access_url", JValue.str access_url)] 200)

/-- The JSON object the dictionary cursor produces for a row. -/
def recordToJ (r : ImageRecord) : JValue :=
  JValue.obj
    [("id", JValue.num r.id),
     ("filename", JValue.str r.filename),
     ("filesize_bytes", JValue.num r.filesize_bytes),
     ("mime_type", JValue.str r.mime_type),
     ("access_url", JValue.str r.access_url)]

/-- `list_images` (GET /images), app.py lines 98-123: open a connection,
select all rows, close, and respond 200 with the rows under the `images`
field. -/
def list_images (st : SysState) (req : HttpRequest) : Outcome :=
  let st1 := { st with openConns := st.openConns + 1 }
  let images := st1.table
  let st2 := { st1 with openConns := st1.openConns - 1 }
  .ok st2 [Ev.connOpen, Ev.dbSelect, Ev.connClose]
    (format_response req.accept [("images", JValue.arr (images.map recordToJ))] 200)

/-- `update_image` (PUT /images/{id}), app.py lines 126-184: if the file
part is missing, respond 400 at once.  Otherwise open a connection and
select the record; if absent, respond 404 without closing the connection
(the code returns before `conn.close()`).  Otherwise delete the old blob
(key = the record's current filename), upload the new blob, make it
public, update the row's four fields with the new blob's public URL,
commit, close, and respond 200. -/
def update_image (st : SysState) (image_id : Nat) (req : HttpRequest) (f : Faults) :
    Outcome :=
  match req.filePart with
  | none =>
      .ok st [] (format_response req.accept
        [("error", JValue.str "No se encontró el archivo")] 400)
  | some file =>
      let st1 := { st with openConns := st.openConns + 1 }
      match selectById st1.table image_id with
      | none =>
          .ok st1 [Ev.connOpen, Ev.dbSelect]
            (format_response req.accept
              [("error", JValue.str "Imagen no encontrada")] 404)
      | some old =>
          if f.blobDeleteFails then
            .exn st1 [Ev.connOpen, Ev.dbSelect] "StorageError"
          else
            let st2 := { st1 with bucket := delBlob st1.bucket old.filename }
            if f.uploadFails then
              .exn st2 [Ev.connOpen, Ev.dbSelect, Ev.blobDelete old.filename]
                "StorageWriteError"
            else
              let st3 := { st2 with
                bucket := putBlob st2.bucket file.filename
                  ⟨file.content, file.content_type⟩ }
              let new_url := public_url file.filename
              if f.updateFails then
                .exn st3 [Ev.connOpen, Ev.dbSelect, Ev.blobDelete old.filename,
                          Ev.blobUpload file.filename] "StoreQueryError"
              else
                let st4 := { st3 with
                  table := updateById st3.table image_id file.filename
                    file.content_length file.content_type new_url }
                let st5 := { st4 with openConns := st4.openConns - 1 }
                .ok st5 [Ev.connOpen, Ev.dbSelect, Ev.blobDelete old.filename,
                         Ev.blobUpload file.filename, Ev.dbUpdate image_id, Ev.connClose]
                  (format_response req.accept
                    [("message", JValue.str "Imagen actualizada correctamente"),
                     ("new_url", JValue.str new_url)] 200)

/-- `delete_image` (DELETE /images/{id}), app.py lines 187-224: open a
connection and select the record; if absent, respond 404 without closing
the connection (the code returns before `conn.close()`).  Otherwise delete
the blob stored under the record's filename, then delete the row, commit,
close, and respond 200. -/
def delete_image (st : SysState) (image_id : Nat) (req : HttpRequest) (f : Faults) :
    Outcome :=
  let st1 := { st with openConns := st.openConns + 1 }
  match selectById st1.table image_id with
  | none =>
      .ok st1 [Ev.connOpen, Ev.dbSelect]
        (format_response req.accept
          [("error", JValue.str "Imagen no encontrada")] 404)
  | some img =>
      if f.blobDeleteFails then
        .exn st1 [Ev.connOpen, Ev.dbSelect] "StorageError"
      else
        let st2 := { st1 with bucket := delBlob st1.bucket img.filename }
        if f.rowDeleteFails then
          .exn st2 [Ev.connOpen, Ev.dbSelect, Ev.blobDelete img.filename]
            "StoreQueryError"
        else
          let st3 := { st2 with table := deleteById st2.table image_id }
          let st4 := { st3 with openConns := st3.openConns - 1 }
          .ok st4 [Ev.connOpen, Ev.dbSelect, Ev.blobDelete img.filename,
                   Ev.dbDeleteRow image_id, Ev.connClose]
            (format_response req.accept
              [("message", JValue.str "Imagen eliminada correctamente")] 200)

/-! Path lemmas: one lemma per control-flow path of each handler. -/

theorem upload_image_missing (st : SysState) (acc : Option String) (f : Faults) :
    upload_image st ⟨acc, none⟩ f =
      .ok st [] (format_response acc
        [("error", JValue.str "No se encontró el archivo")] 400) := rfl

theorem upload_image_ok (st : SysState) (acc : Option String) (file : FilePart) :
    upload_image st ⟨acc, some file⟩ noFaults =
      .ok { st with
              bucket := putBlob st.bucket file.filename ⟨file.content, file.content_type⟩,
              table := st.table ++ [⟨st.nextId, file.filename, file.content_length,
                        file.content_type, public_url file.filename⟩],
              nextId := st.nextId + 1 }
        [Ev.blobUpload file.filename, Ev.connOpen, Ev.dbInsert, Ev.connClose]
        (format_response acc
          [("message", JValue.str "Imagen subida correctamente"),
           ("filename", JValue.str file.filename),
           ("access_url", JValue.str (public_url file.filename))] 200) := rfl

theorem upload_image_upload_fail (st : SysState) (acc : Option String) (file : FilePart)
    (f : Faults) (h : f.uploadFails = true) :
    upload_image st ⟨acc, some file⟩ f = .exn st [] "StorageWriteError" := by
  simp [upload_image, h]

theorem upload_image_insert_fail (st : SysState) (acc : Option String) (file : FilePart)
    (f : Faults) (hu : f.uploadFails = false) (hi : f.insertFails = true) :
    upload_image st ⟨acc, some file⟩ f =
      .exn { st with
               bucket := putBlob st.bucket file.filename ⟨file.content, file.content_type⟩,
               openConns := st.openConns + 1 }
        [Ev.blobUpload file.filename, Ev.connOpen] "StoreQueryError" := by
  simp [upload_image, hu, hi]

theorem update_image_missing (st : SysState) (image_id : Nat) (acc : Option String)
    (f : Faults) :
    update_image st image_id ⟨acc, none⟩ f =
      .ok st [] (format_response acc
        [("error", JValue.str "No se encontró el archivo")] 400) := rfl

theorem update_image_not_found (st : SysState) (image_id : Nat) (acc : Option String)
    (file : FilePart) (f : Faults) (hsel : selectById st.table image_id = none) :
    update_image st image_id ⟨acc, some file⟩ f =
      .ok { st with openConns := st.openConns + 1 } [Ev.connOpen, Ev.dbSelect]
        (format_response acc [("error", JValue.str "Imagen no encontrada")] 404) := by
  simp [update_image, hsel]

theorem update_image_found (st : SysState) (image_id : Nat) (acc : Option String)
    (file : FilePart) (old : ImageRecord)
    (hsel : selectById st.table image_id = some old) :
    update_image st image_id ⟨acc, some file⟩ noFaults =
      .ok { st with
              bucket := putBlob (delBlob st.bucket old.filename) file.filename
                          ⟨file.content, file.content_type⟩,
              table := updateById st.table image_id file.filename file.content_length
                          file.content_type (public_url file.filename) }
        [Ev.connOpen, Ev.dbSelect, Ev.blobDelete old.filename,
         Ev.blobUpload file.filename, Ev.dbUpdate image_id, Ev.connClose]
        (format_response acc
          [("message", JValue.str "Imagen actualizada correctamente"),
           ("new_url", JValue.str (public_url file.filename))] 200) := by
  simp [update_image, hsel, noFaults]

theorem delete_image_not_found (st : SysState) (image_id : Nat) (req : HttpRequest)
    (f : Faults) (hsel : selectById st.table image_id = none) :
    delete_image st image_id req f =
      .ok { st with openConns := st.openConns + 1 } [Ev.connOpen, Ev.dbSelect]
        (format_response req.accept
          [("error", JValue.str "Imagen no encontrada")] 404) := by
  simp [delete_image, hsel]

theorem delete_image_found (st : SysState) (image_id : Nat) (req : HttpRequest)
    (img : ImageRecord) (hsel : selectById st.table image_id = some img) :
    delete_image st image_id req noFaults =
      .ok { st with
              bucket := delBlob st.bucket img.filename,
              table := deleteById st.table image_id }
        [Ev.connOpen, Ev.dbSelect, Ev.blobDelete img.filename,
         Ev.dbDeleteRow image_id, Ev.connClose]
        (format_response req.accept
          [("message", JValue.str "Imagen eliminada correctamente")] 200) := by
  simp [delete_image, hsel, noFaults]

theorem delete_image_blob_fail (st : SysState) (image_id : Nat) (req : HttpRequest)
    (f : Faults) (img : ImageRecord)
    (hsel : selectById st.table image_id = some img)
    (hb : f.blobDeleteFails = true) :
    delete_image st image_id req f =
      .exn { st with openConns := st.openConns + 1 } [Ev.connOpen, Ev.dbSelect]
        "StorageError" := by
  simp [delete_image, hsel, hb]

/-! Claim theorems. -/

/-- The status of a formatted response is the given code, whichever
representation was negotiated. -/
theorem format_response_status (accept : Option String)
    (data : List (String × JValue)) (code : Nat) :
    (format_response accept data code).status = code := by
  unfold format_response
  split <;> rfl

/-- Claim C6: for every request and every result payload, the response is
rendered as XML with content-type `application/xml` exactly when the
request's Accept header is the literal string `application/xml`; for every
other Accept value, or when the header is absent, the response is JSON
(content-type `application/json`); in both cases the response carries the
given status code (and the payload is passed through unchanged). -/
theorem C6_content_negotiation (accept : Option String)
    (data : List (String × JValue)) (code : Nat) :
    (format_response accept data code).status = code ∧
    ((format_response accept data code).body.isXml
      = decide (accept = some "application/xml")) ∧
    (format_response accept data code).contentType =
      (if accept = some "application/xml" then "application/xml"
       else "application/json") ∧
    (format_response accept data code).body.data = data := by
  unfold format_response
  by_cases h : accept = some "application/xml" <;>
    simp [h, Body.isXml, Body.data]

/-- Claim C8: for every Create or Replace request whose file part is
missing, the handler responds 400 and leaves the whole state unchanged:
no blob is created or deleted, no row is inserted, updated or deleted. -/
theorem C8_missing_file_no_mutation (st : SysState) (image_id : Nat)
    (req : HttpRequest) (f : Faults) (h : req.filePart = none) :
    upload_image st req f =
      .ok st [] (format_response req.accept
        [("error", JValue.str "No se encontró el archivo")] 400) ∧
    update_image st image_id req f =
      .ok st [] (format_response req.accept
        [("error", JValue.str "No se encontró el archivo")] 400) := by
  rcases req with ⟨acc, fp⟩
  cases fp with
  | none => exact ⟨upload_image_missing st acc f, update_image_missing st image_id acc f⟩
  | some file => exact Option.noConfusion h

theorem C8_missing_file_no_mutation_witness :
    (({ accept := none, filePart := none } : HttpRequest).filePart = none) ∧
    (upload_image ⟨[], [], 1, 0⟩ ⟨none, none⟩ noFaults =
      .ok ⟨[], [], 1, 0⟩ [] (format_response none
        [("error", JValue.str "No se encontró el archivo")] 400) ∧
     update_image ⟨[], [], 1, 0⟩ 3 ⟨none, none⟩ noFaults =
      .ok ⟨[], [], 1, 0⟩ [] (format_response none
        [("error", JValue.str "No se encontró el archivo")] 400)) :=
  ⟨rfl, C8_missing_file_no_mutation ⟨[], [], 1, 0⟩ 3 ⟨none, none⟩ noFaults rfl⟩

/-- Claim C2 counterexample: a Replace request on a non-existent id (id 7,
empty table) whose file part is also missing returns status 400, not 404 —
the handler validates the file part before looking up the record. -/
theorem C2_counterexample_missing_both :
    ((update_image ⟨[], [], 1, 0⟩ 7 ⟨none, none⟩ noFaults).response.map
       HttpResponse.status = some 400) ∧
    ((update_image ⟨[], [], 1, 0⟩ 7 ⟨none, none⟩ noFaults).response.map
       HttpResponse.status ≠ some 404) :=
  ⟨rfl, by decide⟩

/-- Claim C2 (amended): the Replace handler validates the file part first —
a missing file part fails with 400 before any record lookup — and only when
the file part is present does a non-existent id fail with 404; in
particular a Replace on a non-existent id whose file part is also missing
returns 400, not 404. -/
theorem C2_validation_order (st : SysState) (image_id : Nat)
    (req : HttpRequest) (f : Faults) :
    (req.filePart = none →
      (update_image st image_id req f).response.map HttpResponse.status
        = some 400) ∧
    (∀ file : FilePart, req.filePart = some file →
      selectById st.table image_id = none →
      (update_image st image_id req f).response.map HttpResponse.status
        = some 404) := by
  rcases req with ⟨acc, fp⟩
  constructor
  · intro h
    cases fp with
    | none =>
        rw [update_image_missing st image_id acc f]
        simp [Outcome.response, format_response_status]
    | some file => exact Option.noConfusion h
  · intro file h hsel
    cases fp with
    | none => exact Option.noConfusion h
    | some file2 =>
      cases Option.some.inj h
      rw [update_image_not_found st image_id acc file f hsel]
      simp [Outcome.response, format_response_status]

theorem C2_validation_order_witness :
    (((⟨none, none⟩ : HttpRequest).filePart = none) ∧
     (update_image ⟨[], [], 1, 0⟩ 7 ⟨none, none⟩ noFaults).response.map
       HttpResponse.status = some 400) ∧
    ((⟨none, some ⟨"b.png", [9], 1, "image/png"⟩⟩ : HttpRequest).filePart
       = some ⟨"b.png", [9], 1, "image/png"⟩ ∧
     selectById (⟨[], [], 1, 0⟩ : SysState).table 7 = none ∧
     (update_image ⟨[], [], 1, 0⟩ 7 ⟨none, some ⟨"b.png", [9], 1, "image/png"⟩⟩
        noFaults).response.map HttpResponse.status = some 404) :=
  ⟨⟨rfl, (C2_validation_order ⟨[], [], 1, 0⟩ 7 ⟨none, none⟩ noFaults).1 rfl⟩,
   ⟨rfl, rfl,
    (C2_validation_order ⟨[], [], 1, 0⟩ 7 ⟨none, some ⟨"b.png", [9], 1, "image/png"⟩⟩
      noFaults).2 ⟨"b.png", [9], 1, "image/png"⟩ rfl rfl⟩⟩

/-- Storing a blob makes it retrievable under its key. -/
theorem getBlob_putBlob (bucket : Bucket) (key : String) (b : BlobData) :
    getBlob (putBlob bucket key b) key = some b := by
  unfold getBlob putBlob
  rw [List.find?_append]
  have h1 : (bucket.filter (fun p => p.1 != key)).find? (fun p => p.1 == key) = none := by
    rw [List.find?_eq_none]
    intro x hx
    have h2 := List.of_mem_filter hx
    simp_all
  rw [h1]
  simp

/-- After storing a blob under `key`, the bucket holds exactly one entry
with that key. -/
theorem filter_putBlob (bucket : Bucket) (key : String) (b : BlobData) :
    (putBlob bucket key b).filter (fun p => p.1 == key) = [(key, b)] := by
  unfold putBlob
  rw [List.filter_append]
  have h1 : (bucket.filter (fun p => p.1 != key)).filter (fun p => p.1 == key) = [] := by
    rw [List.filter_filter]
    apply List.filter_eq_nil_iff.mpr
    intro a ha
    simp
  rw [h1]
  simp

/-- Claim C7 counterexample: a Replace request on id 5, which matches no
record of the one-row table, returns status 400 (not 404) when its file
part is missing — so "Replace on a non-existent id returns 404" does not
hold unconditionally. -/
theorem C7_counterexample_replace_400 :
    ((update_image ⟨[], [⟨1, "a.png", 10, "image/png", public_url "a.png"⟩], 2, 0⟩ 5
        ⟨none, none⟩ noFaults).response.map HttpResponse.status ≠ some 404) ∧
    ((update_image ⟨[], [⟨1, "a.png", 10, "image/png", public_url "a.png"⟩], 2, 0⟩ 5
        ⟨none, none⟩ noFaults).response.map HttpResponse.status = some 400) ∧
    selectById ((⟨[], [⟨1, "a.png", 10, "image/png", public_url "a.png"⟩], 2, 0⟩
        : SysState)).table 5 = none :=
  ⟨by decide, rfl, rfl⟩

/-- Claim C7 (amended): a Delete on a non-existent id, and a Replace on a
non-existent id whose file part is present, return 404; a Replace on a
non-existent id whose file part is missing returns 400; in all three cases
neither backend is mutated — the bucket and the table are unchanged. -/
theorem C7_not_found_no_mutation (st : SysState) (image_id : Nat)
    (req : HttpRequest) (hsel : selectById st.table image_id = none) :
    ((delete_image st image_id req noFaults).response.map HttpResponse.status
        = some 404 ∧
     (delete_image st image_id req noFaults).finalState.bucket = st.bucket ∧
     (delete_image st image_id req noFaults).finalState.table = st.table) ∧
    (∀ file : FilePart, req.filePart = some file →
      (update_image st image_id req noFaults).response.map HttpResponse.status
          = some 404 ∧
      (update_image st image_id req noFaults).finalState.bucket = st.bucket ∧
      (update_image st image_id req noFaults).finalState.table = st.table) ∧
    (req.filePart = none →
      (update_image st image_id req noFaults).response.map HttpResponse.status
          = some 400 ∧
      (update_image st image_id req noFaults).finalState.bucket = st.bucket ∧
      (update_image st image_id req noFaults).finalState.table = st.table) := by
  refine ⟨?_, ?_, ?_⟩
  · rw [delete_image_not_found st image_id req noFaults hsel]
    simp [Outcome.response, Outcome.finalState, format_response_status]
  · intro file hf
    rcases req with ⟨acc, fp⟩
    cases fp with
    | none => exact Option.noConfusion hf
    | some file2 =>
      cases Option.some.inj hf
      rw [update_image_not_found st image_id acc file noFaults hsel]
      simp [Outcome.response, Outcome.finalState, format_response_status]
  · intro hf
    rcases req with ⟨acc, fp⟩
    cases fp with
    | none =>
      rw [update_image_missing st image_id acc noFaults]
      simp [Outcome.response, Outcome.finalState, format_response_status]
    | some file => exact Option.noConfusion hf

theorem C7_not_found_no_mutation_witness :
    (selectById ((⟨[], [], 1, 0⟩ : SysState)).table 9 = none) ∧
    ((delete_image ⟨[], [], 1, 0⟩ 9 ⟨none, none⟩ noFaults).response.map
        HttpResponse.status = some 404 ∧
     (delete_image ⟨[], [], 1, 0⟩ 9 ⟨none, none⟩ noFaults).finalState.bucket = [] ∧
     (delete_image ⟨[], [], 1, 0⟩ 9 ⟨none, none⟩ noFaults).finalState.table = []) ∧
    ((update_image ⟨[], [], 1, 0⟩ 9 ⟨none, some ⟨"w.png", [4], 1, "image/png"⟩⟩
        noFaults).response.map HttpResponse.status = some 404) :=
  ⟨rfl,
   (C7_not_found_no_mutation ⟨[], [], 1, 0⟩ 9 ⟨none, none⟩ rfl).1,
   ((C7_not_found_no_mutation ⟨[], [], 1, 0⟩ 9
       ⟨none, some ⟨"w.png", [4], 1, "image/png"⟩⟩ rfl).2.1
     ⟨"w.png", [4], 1, "image/png"⟩ rfl).1⟩

/-- Claim C3: the spec says every metadata-store operation releases its
database connection on every exit path, but the not-found early returns of
Replace and Delete leave the connection open: a Delete of id 7 against an
empty table answers 404 with one connection still open (openConns goes
from 0 to 1 and the trace has no connClose), and likewise a Replace with
a file part on a missing id. -/
theorem C3_connection_not_released :
    ((delete_image ⟨[], [], 1, 0⟩ 7 ⟨none, none⟩ noFaults).response.map
       HttpResponse.status = some 404) ∧
    (⟨[], [], 1, 0⟩ : SysState).openConns = 0 ∧
    (delete_image ⟨[], [], 1, 0⟩ 7 ⟨none, none⟩ noFaults).finalState.openConns = 1 ∧
    Ev.connClose ∉ (delete_image ⟨[], [], 1, 0⟩ 7 ⟨none, none⟩ noFaults).trace ∧
    (update_image ⟨[], [], 1, 0⟩ 7 ⟨none, some ⟨"c.png", [1], 1, "image/png"⟩⟩
       noFaults).finalState.openConns = 1 :=
  ⟨rfl, rfl, rfl, by decide, rfl⟩

/-- Claim C1: for a Replace request whose record id exists and whose file
part is present, the handler performs, in this order: delete the blob
stored under the record's current filename, then upload the new blob
(obtaining its public URL), and only then update the row's filename,
filesize_bytes, mime_type and access_url with the new blob's URL — as
witnessed by the exact effect trace and the resulting state. -/
theorem C1_replace_step_order (st : SysState) (image_id : Nat) (req : HttpRequest)
    (file : FilePart) (old : ImageRecord)
    (hf : req.filePart = some file)
    (hsel : selectById st.table image_id = some old) :
    update_image st image_id req noFaults =
      .ok { st with
              bucket := putBlob (delBlob st.bucket old.filename) file.filename
                          ⟨file.content, file.content_type⟩,
              table := updateById st.table image_id file.filename file.content_length
                          file.content_type (public_url file.filename) }
        [Ev.connOpen, Ev.dbSelect, Ev.blobDelete old.filename,
         Ev.blobUpload file.filename, Ev.dbUpdate image_id, Ev.connClose]
        (format_response req.accept
          [("message", JValue.str "Imagen actualizada correctamente"),
           ("new_url", JValue.str (public_url file.filename))] 200) := by
  rcases req with ⟨acc, fp⟩
  cases fp with
  | none => exact Option.noConfusion hf
  | some file2 =>
      cases Option.some.inj hf
      exact update_image_found st image_id acc file old hsel

theorem C1_replace_step_order_witness :
    ((⟨none, some ⟨"new.png", [2, 3], 2, "image/jpeg"⟩⟩ : HttpRequest).filePart
       = some ⟨"new.png", [2, 3], 2, "image/jpeg"⟩) ∧
    (selectById ((⟨[("old.png", ⟨[1], "image/png"⟩)],
        [⟨1, "old.png", 1, "image/png", public_url "old.png"⟩], 2, 0⟩
          : SysState)).table 1
       = some ⟨1, "old.png", 1, "image/png", public_url "old.png"⟩) ∧
    (update_image ⟨[("old.png", ⟨[1], "image/png"⟩)],
        [⟨1, "old.png", 1, "image/png", public_url "old.png"⟩], 2, 0⟩ 1
        ⟨none, some ⟨"new.png", [2, 3], 2, "image/jpeg"⟩⟩ noFaults =
      .ok { bucket := putBlob (delBlob [("old.png", ⟨[1], "image/png"⟩)] "old.png")
                        "new.png" ⟨[2, 3], "image/jpeg"⟩,
            table := updateById [⟨1, "old.png", 1, "image/png", public_url "old.png"⟩]
                        1 "new.png" 2 "image/jpeg" (public_url "new.png"),
            nextId := 2, openConns := 0 }
        [Ev.connOpen, Ev.dbSelect, Ev.blobDelete "old.png",
         Ev.blobUpload "new.png", Ev.dbUpdate 1, Ev.connClose]
        (format_response none
          [("message", JValue.str "Imagen actualizada correctamente"),
           ("new_url", JValue.str (public_url "new.png"))] 200)) :=
  ⟨rfl, rfl,
   C1_replace_step_order
     ⟨[("old.png", ⟨[1], "image/png"⟩)],
      [⟨1, "old.png", 1, "image/png", public_url "old.png"⟩], 2, 0⟩ 1
     ⟨none, some ⟨"new.png", [2, 3], 2, "image/jpeg"⟩⟩
     ⟨"new.png", [2, 3], 2, "image/jpeg"⟩
     ⟨1, "old.png", 1, "image/png", public_url "old.png"⟩ rfl rfl⟩

/-- Claim C4: for a Create request with a file part, the blob upload comes
before the metadata insert (see the effect trace of the successful run);
if the upload fails, the handler raises with the state untouched (no row
inserted, no blob stored); if the upload succeeds and the insert fails,
the handler raises with the blob stored but the table unchanged — an
orphaned blob — and the error is propagated, not masked. -/
theorem C4_create_upload_before_insert (st : SysState) (req : HttpRequest)
    (file : FilePart) (hf : req.filePart = some file) :
    ((upload_image st req noFaults).trace =
      [Ev.blobUpload file.filename, Ev.connOpen, Ev.dbInsert, Ev.connClose]) ∧
    (∀ f : Faults, f.uploadFails = true →
      upload_image st req f = .exn st [] "StorageWriteError") ∧
    (∀ f : Faults, f.uploadFails = false → f.insertFails = true →
      upload_image st req f =
        .exn { st with
                 bucket := putBlob st.bucket file.filename
                             ⟨file.content, file.content_type⟩,
                 openConns := st.openConns + 1 }
          [Ev.blobUpload file.filename, Ev.connOpen] "StoreQueryError") := by
  rcases req with ⟨acc, fp⟩
  cases fp with
  | none => exact Option.noConfusion hf
  | some file2 =>
      cases Option.some.inj hf
      refine ⟨?_, ?_, ?_⟩
      · rw [upload_image_ok st acc file]
        rfl
      · intro f h
        exact upload_image_upload_fail st acc file f h
      · intro f hu hi
        exact upload_image_insert_fail st acc file f hu hi

theorem C4_create_upload_before_insert_witness :
    ((⟨none, some ⟨"d.png", [8], 1, "image/png"⟩⟩ : HttpRequest).filePart
       = some ⟨"d.png", [8], 1, "image/png"⟩) ∧
    ((upload_image ⟨[], [], 1, 0⟩ ⟨none, some ⟨"d.png", [8], 1, "image/png"⟩⟩
        noFaults).trace =
      [Ev.blobUpload "d.png", Ev.connOpen, Ev.dbInsert, Ev.connClose]) ∧
    (upload_image ⟨[], [], 1, 0⟩ ⟨none, some ⟨"d.png", [8], 1, "image/png"⟩⟩
        ⟨true, false, false, false, false⟩ = .exn ⟨[], [], 1, 0⟩ [] "StorageWriteError") ∧
    (upload_image ⟨[], [], 1, 0⟩ ⟨none, some ⟨"d.png", [8], 1, "image/png"⟩⟩
        ⟨false, true, false, false, false⟩ =
      .exn { bucket := putBlob [] "d.png" ⟨[8], "image/png"⟩, table := [],
             nextId := 1, openConns := 1 }
        [Ev.blobUpload "d.png", Ev.connOpen] "StoreQueryError") :=
  ⟨rfl,
   (C4_create_upload_before_insert ⟨[], [], 1, 0⟩
     ⟨none, some ⟨"d.png", [8], 1, "image/png"⟩⟩ ⟨"d.png", [8], 1, "image/png"⟩ rfl).1,
   (C4_create_upload_before_insert ⟨[], [], 1, 0⟩
     ⟨none, some ⟨"d.png", [8], 1, "image/png"⟩⟩ ⟨"d.png", [8], 1, "image/png"⟩ rfl).2.1
     ⟨true, false, false, false, false⟩ rfl,
   (C4_create_upload_before_insert ⟨[], [], 1, 0⟩
     ⟨none, some ⟨"d.png", [8], 1, "image/png"⟩⟩ ⟨"d.png", [8], 1, "image/png"⟩ rfl).2.2
     ⟨false, true, false, false, false⟩ rfl rfl⟩

/-- Claim C5: for a Delete request on an existing record, if the blob
deletion fails, the handler raises the storage error before attempting the
row deletion: the outcome is an unhandled exception, the table and the
bucket are unchanged, and the trace contains no row-deletion effect. -/
theorem C5_blob_delete_failure_keeps_row (st : SysState) (image_id : Nat)
    (req : HttpRequest) (f : Faults) (img : ImageRecord)
    (hsel : selectById st.table image_id = some img)
    (hb : f.blobDeleteFails = true) :
    delete_image st image_id req f =
      .exn { st with openConns := st.openConns + 1 } [Ev.connOpen, Ev.dbSelect]
        "StorageError" ∧
    (delete_image st image_id req f).isExn = true ∧
    (delete_image st image_id req f).finalState.table = st.table ∧
    (delete_image st image_id req f).finalState.bucket = st.bucket ∧
    Ev.dbDeleteRow image_id ∉ (delete_image st image_id req f).trace := by
  rw [delete_image_blob_fail st image_id req f img hsel hb]
  refine ⟨rfl, rfl, rfl, rfl, ?_⟩
  simp [Outcome.trace]

theorem C5_blob_delete_failure_keeps_row_witness :
    (selectById ((⟨[("e.png", ⟨[5], "image/png"⟩)],
        [⟨1, "e.png", 1, "image/png", public_url "e.png"⟩], 2, 0⟩ : SysState)).table 1
      = some ⟨1, "e.png", 1, "image/png", public_url "e.png"⟩) ∧
    ((⟨false, false, true, false, false⟩ : Faults).blobDeleteFails = true) ∧
    (delete_image ⟨[("e.png", ⟨[5], "image/png"⟩)],
        [⟨1, "e.png", 1, "image/png", public_url "e.png"⟩], 2, 0⟩ 1 ⟨none, none⟩
        ⟨false, false, true, false, false⟩ =
      .exn { bucket := [("e.png", ⟨[5], "image/png"⟩)],
             table := [⟨1, "e.png", 1, "image/png", public_url "e.png"⟩],
             nextId := 2, openConns := 1 }
        [Ev.connOpen, Ev.dbSelect] "StorageError") :=
  ⟨rfl, rfl,
   (C5_blob_delete_failure_keeps_row
     ⟨[("e.png", ⟨[5], "image/png"⟩)],
      [⟨1, "e.png", 1, "image/png", public_url "e.png"⟩], 2, 0⟩ 1 ⟨none, none⟩
     ⟨false, false, true, false, false⟩
     ⟨1, "e.png", 1, "image/png", public_url "e.png"⟩ rfl rfl).1⟩

/-- The file part of the cat.png scenario: filename cat.png, content type
image/png, 1024 bytes of content. -/
def catFile : FilePart := ⟨"cat.png", List.replicate 1024 0, 1024, "image/png"⟩

/-- The Create request of the cat.png scenario. -/
def catReq : HttpRequest := ⟨none, some catFile⟩

/-- The empty initial state of the cat.png scenario. -/
def initState : SysState := ⟨[], [], 1, 0⟩

/-- Claim C9: creating cat.png (content type image/png, 1024 bytes)
against an empty store answers 200 with a body whose filename field is
"cat.png" and whose access_url is non-empty, and a subsequent List
includes a record with filename "cat.png" and filesize_bytes 1024, the
uploaded content's byte length. -/
theorem C9_cat_scenario :
    catFile.content.length = 1024 ∧
    ((upload_image initState catReq noFaults).response.map HttpResponse.status
       = some 200) ∧
    ((upload_image initState catReq noFaults).response.map
        (fun r => fieldOf (Body.data r.body) "filename")
       = some (some (JValue.str "cat.png"))) ∧
    ((upload_image initState catReq noFaults).response.map
        (fun r => fieldOf (Body.data r.body) "access_url")
       = some (some (JValue.str (public_url "cat.png")))) ∧
    public_url "cat.png" ≠ "" ∧
    ((list_images (upload_image initState catReq noFaults).finalState
        ⟨none, none⟩).response.map
        (fun r => fieldOf (Body.data r.body) "images")
       = some (some (JValue.arr
           [recordToJ ⟨1, "cat.png", 1024, "image/png", public_url "cat.png"⟩]))) ∧
    (⟨1, "cat.png", 1024, "image/png", public_url "cat.png"⟩ : ImageRecord).filename
       = "cat.png" ∧
    (⟨1, "cat.png", 1024, "image/png", public_url "cat.png"⟩ : ImageRecord).filesize_bytes
       = 1024 :=
  ⟨by show (List.replicate 1024 (0 : Nat)).length = 1024
      rw [List.length_replicate],
   rfl, rfl, rfl, by decide, rfl, rfl, rfl⟩

/-- Claim C10: a Create whose supplied filename equals an existing
record's filename silently overwrites that record's blob and appends a
second row with the same filename and the same access_url: afterwards the
pre-existing record and the new one are distinct rows both referencing the
single blob stored under that one key, now holding the new content. -/
theorem C10_duplicate_filename_shared_blob (st : SysState) (req : HttpRequest)
    (file : FilePart) (r : ImageRecord)
    (hf : req.filePart = some file)
    (hmem : r ∈ st.table)
    (hfn : r.filename = file.filename)
    (hurl : r.access_url = public_url r.filename)
    (hid : r.id ≠ st.nextId) :
    ∃ st2 tr resp, upload_image st req noFaults = .ok st2 tr resp ∧
      getBlob st2.bucket r.filename = some ⟨file.content, file.content_type⟩ ∧
      st2.table = st.table ++
        [⟨st.nextId, file.filename, file.content_length, file.content_type,
          public_url file.filename⟩] ∧
      r ∈ st2.table ∧
      (∃ newR : ImageRecord, newR ∈ st2.table ∧ newR.id ≠ r.id ∧
        newR.filename = r.filename ∧ newR.access_url = r.access_url) ∧
      (st2.bucket.filter (fun p => p.1 == r.filename)).length = 1 := by
  rcases req with ⟨acc, fp⟩
  cases fp with
  | none => exact Option.noConfusion hf
  | some file2 =>
    cases Option.some.inj hf
    refine ⟨_, _, _, upload_image_ok st acc file, ?_, ?_, ?_, ?_, ?_⟩
    · show getBlob (putBlob st.bucket file.filename ⟨file.content, file.content_type⟩)
        r.filename = some ⟨file.content, file.content_type⟩
      rw [hfn]
      exact getBlob_putBlob st.bucket file.filename ⟨file.content, file.content_type⟩
    · rfl
    · show r ∈ st.table ++ [(⟨st.nextId, file.filename, file.content_length,
        file.content_type, public_url file.filename⟩ : ImageRecord)]
      exact List.mem_append_left _ hmem
    · refine ⟨⟨st.nextId, file.filename, file.content_length, file.content_type,
        public_url file.filename⟩, ?_, ?_, ?_, ?_⟩
      · show _ ∈ st.table ++ [(⟨st.nextId, file.filename, file.content_length,
          file.content_type, public_url file.filename⟩ : ImageRecord)]
        exact List.mem_append_right _ (List.mem_singleton.mpr rfl)
      · exact fun h => hid h.symm
      · exact hfn.symm
      · show public_url file.filename = r.access_url
        rw [hurl, hfn]
    · show ((putBlob st.bucket file.filename
          ⟨file.content, file.content_type⟩).filter
            (fun p => p.1 == r.filename)).length = 1
      rw [hfn, filter_putBlob]
      rfl

theorem C10_duplicate_filename_shared_blob_witness :
    ((⟨none, some ⟨"a.png", [5, 6], 2, "image/jpeg"⟩⟩ : HttpRequest).filePart
       = some ⟨"a.png", [5, 6], 2, "image/jpeg"⟩) ∧
    ((⟨1, "a.png", 1, "image/png", public_url "a.png"⟩ : ImageRecord)
       ∈ ((⟨[("a.png", ⟨[7], "image/png"⟩)],
            [⟨1, "a.png", 1, "image/png", public_url "a.png"⟩], 2, 0⟩ : SysState)).table) ∧
    ((1 : Nat) ≠ 2) ∧
    (∃ st2 tr resp,
      upload_image ⟨[("a.png", ⟨[7], "image/png"⟩)],
          [⟨1, "a.png", 1, "image/png", public_url "a.png"⟩], 2, 0⟩
        ⟨none, some ⟨"a.png", [5, 6], 2, "image/jpeg"⟩⟩ noFaults = .ok st2 tr resp ∧
      getBlob st2.bucket
          (⟨1, "a.png", 1, "image/png", public_url "a.png"⟩ : ImageRecord).filename
        = some ⟨[5, 6], "image/jpeg"⟩ ∧
      st2.table = [⟨1, "a.png", 1, "image/png", public_url "a.png"⟩] ++
        [⟨2, "a.png", 2, "image/jpeg", public_url "a.png"⟩] ∧
      (⟨1, "a.png", 1, "image/png", public_url "a.png"⟩ : ImageRecord) ∈ st2.table ∧
      (∃ newR : ImageRecord, newR ∈ st2.table ∧ newR.id ≠ 1 ∧
        newR.filename = "a.png" ∧ newR.access_url = public_url "a.png") ∧
      (st2.bucket.filter (fun p => p.1 == "a.png")).length = 1) := by
  refine ⟨rfl, List.mem_singleton.mpr rfl, by decide, ?_⟩
  exact C10_duplicate_filename_shared_blob
    ⟨[("a.png", ⟨[7], "image/png"⟩)],
     [⟨1, "a.png", 1, "image/png", public_url "a.png"⟩], 2, 0⟩
    ⟨none, some ⟨"a.png", [5, 6], 2, "image/jpeg"⟩⟩
    ⟨"a.png", [5, 6], 2, "image/jpeg"⟩
    ⟨1, "a.png", 1, "image/png", public_url "a.png"⟩
    rfl (List.mem_singleton.mpr rfl) rfl rfl (by decide)
